import Mathlib

/-!
Verification of the fake Alertmanager's core engine
(`src/alertmanager/fake/fake_alertmanager.py`).

The Python module keeps two global lists, `alerts` and `silences`, and a
handful of pure helpers over them.  We embed those helpers shallowly:

* timestamps: the code stores ISO-8601 strings and parses them with
  `datetime.fromisoformat` before comparing; since parsing of valid
  timestamps is order-preserving, we model every timestamp directly as the
  parsed instant, an `Int`.  `timedelta(hours=1)` becomes the constant 3600.
* the `re` library: `matches_label` compiles `matcher['value']` and runs an
  unanchored `search`, catching `re.error`.  We model the library as an
  explicit `RegexEngine` parameter: `valid p = false` models the pattern `p`
  raising `re.error` at compile time, and `search p s` the boolean outcome of
  `re.compile(p).search(s)`.
* randomness: `generate_fingerprint` and `random.choice(RECEIVER_NAMES)`
  draw from the process RNG.  We model the two draw sequences as injected
  streams `fp recv : Nat → String`, indexed by the draw number inside one
  request.
* Python dicts of strings become association lists (`List (String × String)`,
  looked up with `List.lookup`); optional JSON keys become `Option` fields
  read with the same defaults the code passes to `dict.get`.
* HTTP responses: a handler either mutates the store and answers 200, or
  answers an error body; we return the new store together with the error,
  or use `Except`/`Option` where the code returns early.
-/

namespace FakeAlertmanager

/-- Model of the Python `re` library as seen by `matches_label`:
`valid p` is false exactly when `re.compile(p)` raises `re.error`, and
`search p s` is the truth value of `re.compile(p).search(s)` for a valid
pattern `p`. -/
structure RegexEngine where
  valid : String → Bool
  search : String → String → Bool

/-- A silence matcher dict.  `post_silences` requires the keys `name`,
`value` and `isRegex`, so stored matchers always carry them; `isEqual` is
never validated and `matches_label` reads it with
`matcher.get('isEqual', True)`, hence the `Option`. -/
structure Matcher where
  name : String
  value : String
  isRegex : Bool
  isEqual : Option Bool
deriving DecidableEq

/-- The `status` sub-dict of an alert. -/
structure AlertStatus where
  state : String
  silencedBy : List String
  inhibitedBy : List String
  mutedBy : List String
deriving DecidableEq

/-- A stored alert.  `receivers` is the list of receiver names
(the code stores `[{"name": n}]`); `annots` models the `annotations`
dict. -/
structure Alert where
  labels : List (String × String)
  annots : List (String × String)
  startsAt : Int
  endsAt : Int
  updatedAt : Int
  generatorURL : String
  fingerprint : String
  receivers : List String
  status : AlertStatus
deriving DecidableEq

/-- A stored silence.  `stateFlag` models `silence['status']['state']`. -/
structure Silence where
  id : String
  matchers : List Matcher
  startsAt : Int
  endsAt : Int
  createdBy : String
  comment : String
  stateFlag : String
  updatedAt : Int
deriving DecidableEq

/-- The two global lists of the module. -/
structure Store where
  alerts : List Alert
  silences : List Silence
deriving DecidableEq

/-- `matches_label(matcher, label_value)` (fake_alertmanager.py:164-187).
`label_value` is `None` when the label is absent, defaulted to `""`.
An invalid regex (`RegexEngine.valid` false, i.e. `re.error`) sets
`matches = False`; the `isEqual` flag then optionally negates the result. -/
def matches_label (E : RegexEngine) (matcher : Matcher) (label_value : Option String) : Bool :=
  let lv := label_value.getD ""
  let matcher_value := matcher.value
  let is_regex := matcher.isRegex
  let is_equal := matcher.isEqual.getD true
  let res :=
    if is_regex then
      if E.valid matcher_value then E.search matcher_value lv else false
    else
      lv == matcher_value
  if is_equal then res else !res

/-- `match_silence_to_alert(silence, alert)` (fake_alertmanager.py:189-208).
The code samples `now = datetime.now(UTC)` internally; we pass it in.
It returns `False` when `now < startsAt or now > endsAt`, else requires
every matcher to match the alert's labels. -/
def match_silence_to_alert (E : RegexEngine) (now : Int) (silence : Silence) (alert : Alert) :
    Bool :=
  if now < silence.startsAt || now > silence.endsAt then false
  else
    silence.matchers.all fun matcher =>
      matches_label E matcher (alert.labels.lookup matcher.name)

/-- The `silenced_by` list computed for one alert inside
`apply_silences_to_alerts` (fake_alertmanager.py:216-221): the ids of the
silences that match the alert, in silence-list order. -/
def silencedIdsFor (E : RegexEngine) (now : Int) (silences : List Silence) (alert : Alert) :
    List String :=
  (silences.filter fun silence => match_silence_to_alert E now silence alert).map Silence.id

/-- The per-alert body of `apply_silences_to_alerts`
(fake_alertmanager.py:214-231): store the covering ids; a non-empty set
forces `suppressed`, an empty set resets `silencedBy` and reverts the state
to `active` only if it was `suppressed`. -/
def apply_silence_to_alert (E : RegexEngine) (now : Int) (silences : List Silence)
    (alert : Alert) : Alert :=
  let silenced_by := silencedIdsFor E now silences alert
  if silenced_by ≠ [] then
    { alert with status :=
        { alert.status with state := "suppressed", silencedBy := silenced_by } }
  else
    { alert with status :=
        { alert.status with
            state := if alert.status.state == "suppressed" then "active"
                     else alert.status.state,
            silencedBy := [] } }

/-- `apply_silences_to_alerts()` (fake_alertmanager.py:210-231) over an
explicit alert list. -/
def apply_silences_to_alerts (E : RegexEngine) (now : Int) (silences : List Silence)
    (alerts : List Alert) : List Alert :=
  alerts.map (apply_silence_to_alert E now silences)

/-- The per-alert body of `remove_silence_from_alerts`
(fake_alertmanager.py:233-242): `list.remove` drops the first occurrence
(`List.erase`); if the list becomes empty and the state was `suppressed`,
it reverts to `active`. -/
def remove_silence_from_alert (silence_id : String) (alert : Alert) : Alert :=
  if silence_id ∈ alert.status.silencedBy then
    let sb := alert.status.silencedBy.erase silence_id
    if sb = [] then
      { alert with status :=
          { alert.status with
              silencedBy := sb,
              state := if alert.status.state == "suppressed" then "active"
                       else alert.status.state } }
    else
      { alert with status := { alert.status with silencedBy := sb } }
  else alert

/-- `remove_silence_from_alerts(silence_id)` (fake_alertmanager.py:233-242). -/
def remove_silence_from_alerts (silence_id : String) (alerts : List Alert) : List Alert :=
  alerts.map (remove_silence_from_alert silence_id)

/-- `silences.remove(existing)` where `existing` is the first silence whose
id matches: removal of the first element with the given id. -/
def removeFirstById (sid : String) : List Silence → List Silence
  | [] => []
  | s :: rest => if s.id == sid then rest else s :: removeFirstById sid rest

/-- `delete_silence(silence_id)` (fake_alertmanager.py:653-664): 404
(`none`) when no silence has the id; otherwise eagerly strip the id from
every alert and remove the silence. -/
def delete_silence (silence_id : String) (st : Store) : Option Store :=
  match st.silences.find? (fun s => s.id == silence_id) with
  | none => none
  | some _ =>
      some { alerts := remove_silence_from_alerts silence_id st.alerts,
             silences := removeFirstById silence_id st.silences }

/-- The JSON body submitted to `POST /api/v2/silences`; absent keys are
`none`.  (Per-matcher key presence of `name`/`value`/`isRegex` is enforced
by the `Matcher` type itself, so the corresponding 400 branch of the code
is unreachable in this embedding.) -/
structure SilenceSubmission where
  id : Option String
  matchers : Option (List Matcher)
  startsAt : Option Int
  endsAt : Option Int
  createdBy : Option String
  comment : Option String
deriving DecidableEq

/-- `post_silences()` (fake_alertmanager.py:594-642).  `genId` models
`str(uuid.uuid4())`, used only when the submission carries no id.  On
success the silence replaces any first existing silence with the same id,
is appended, and `apply_silences_to_alerts` runs immediately; the response
body is the silence id. -/
def post_silences (E : RegexEngine) (now : Int) (genId : String)
    (sub : SilenceSubmission) (st : Store) : Except String (Store × String) :=
  match sub.matchers with
  | none => .error "Missing required field: matchers"
  | some ms =>
    match sub.startsAt with
    | none => .error "Missing required field: startsAt"
    | some sa =>
      match sub.endsAt with
      | none => .error "Missing required field: endsAt"
      | some ea =>
        match sub.createdBy with
        | none => .error "Missing required field: createdBy"
        | some cb =>
          match sub.comment with
          | none => .error "Missing required field: comment"
          | some cm =>
            if ms.length = 0 then .error "Matchers must be a non-empty list"
            else
              let silence_id := sub.id.getD genId
              let silence : Silence :=
                { id := silence_id, matchers := ms, startsAt := sa, endsAt := ea,
                  createdBy := cb, comment := cm, stateFlag := "active",
                  updatedAt := now }
              let silences2 := removeFirstById silence_id st.silences ++ [silence]
              let alerts2 := apply_silences_to_alerts E now silences2 st.alerts
              .ok ({ alerts := alerts2, silences := silences2 }, silence_id)

/-- The JSON body of one alert submitted to `POST /api/v2/alerts`.
The handler reads `labels`, `annotations`, `startsAt`, `endsAt` and
`generatorURL`; any submitted `fingerprint`, `receivers` or `status` is
present in the payload but never read. -/
structure AlertSubmission where
  labels : Option (List (String × String))
  annots : Option (List (String × String))
  startsAt : Option Int
  endsAt : Option Int
  generatorURL : Option String
  fingerprint : Option String
  receivers : Option (List String)
  status : Option AlertStatus
deriving DecidableEq

/-- The alert dict built for the `i`-th accepted submission inside
`post_alerts` (fake_alertmanager.py:519-534): server-generated fingerprint
(`fp i`), one server-chosen receiver (`recv i`), fresh `active` status. -/
def mkPostedAlert (fp recv : Nat → String) (now : Int) (i : Nat) (sub : AlertSubmission) :
    Alert :=
  { labels := sub.labels.getD [],
    annots := sub.annots.getD [],
    startsAt := sub.startsAt.getD now,
    endsAt := sub.endsAt.getD (now + 3600),
    updatedAt := now,
    generatorURL := sub.generatorURL.getD "",
    fingerprint := fp i,
    receivers := [recv i],
    status := { state := "active", silencedBy := [], inhibitedBy := [], mutedBy := [] } }

/-- The `for alert_data in new_alerts` loop of `post_alerts`
(fake_alertmanager.py:513-536).  `alert_data.get('labels')` falsy (absent
or empty dict) returns the 400 body at once — with every alert appended so
far left in the global list `acc`. -/
def post_alerts_loop (fp recv : Nat → String) (now : Int) :
    Nat → List AlertSubmission → List Alert → List Alert × Option String
  | _, [], acc => (acc, none)
  | i, sub :: rest, acc =>
    if sub.labels.getD [] = [] then (acc, some "Alert must have labels")
    else post_alerts_loop fp recv now (i + 1) rest (acc ++ [mkPostedAlert fp recv now i sub])

/-- `post_alerts()` (fake_alertmanager.py:504-542) over an explicit alert
list: returns the alert list after the request together with the error
body, if any. -/
def post_alerts (fp recv : Nat → String) (now : Int) (subs : List AlertSubmission)
    (alerts : List Alert) : List Alert × Option String :=
  post_alerts_loop fp recv now 0 subs alerts

/-- The four boolean query flags of `filter_alerts_by_params`, after the
`args.get(name, 'true').lower() == 'true'` parsing
(fake_alertmanager.py:422-425). -/
structure FilterFlags where
  active : Bool
  silenced : Bool
  inhibited : Bool
  unprocessed : Bool
deriving DecidableEq

/-- `filter_alerts_by_params(alert_list, args)` (fake_alertmanager.py:418-441):
an alert is skipped when its state is `active`/`suppressed`/`unprocessed`
and the matching flag is off, or when `inhibitedBy` is non-empty and
`inhibited` is off. -/
def filter_alerts_by_params (alert_list : List Alert) (f : FilterFlags) : List Alert :=
  alert_list.filter fun alert =>
    !(alert.status.state == "active" && !f.active) &&
    !(alert.status.state == "suppressed" && !f.silenced) &&
    !(alert.status.state == "unprocessed" && !f.unprocessed) &&
    !(!alert.status.inhibitedBy.isEmpty && !f.inhibited)

/-- A submission with its never-read `fingerprint`, `receivers` and
`status` keys dropped; `post_alerts` cannot distinguish `sub` from
`scrubSubmission sub`. -/
def scrubSubmission (sub : AlertSubmission) : AlertSubmission :=
  { sub with fingerprint := none, receivers := none, status := none }

/-! ### Concrete instances used by counterexamples and witnesses -/

/-- A regex engine under which every pattern is invalid; the silences and
matchers below use no regex matcher, so any engine gives the same results. -/
def e0 : RegexEngine := { valid := fun _ => false, search := fun _ _ => false }

/-- A silence over the window 0..10 with one exact matcher on label `n`. -/
def s0 : Silence :=
  { id := "s0",
    matchers := [{ name := "n", value := "v", isRegex := false, isEqual := some true }],
    startsAt := 0, endsAt := 10, createdBy := "u", comment := "c",
    stateFlag := "active", updatedAt := 0 }

/-- An active alert carrying the label `n = v`, matched by `s0`. -/
def a0 : Alert :=
  { labels := [("n", "v")], annots := [], startsAt := 0, endsAt := 0, updatedAt := 0,
    generatorURL := "", fingerprint := "f0", receivers := ["web.hook"],
    status := { state := "active", silencedBy := [], inhibitedBy := [], mutedBy := [] } }

/-- A resolved alert with empty `inhibitedBy`. -/
def resolved0 : Alert :=
  { a0 with fingerprint := "f1",
            status := { state := "resolved", silencedBy := [], inhibitedBy := [],
                        mutedBy := [] } }

/-- A well-formed alert submission (labels present and non-empty). -/
def subOk : AlertSubmission :=
  { labels := some [("alertname", "X")], annots := none, startsAt := none, endsAt := none,
    generatorURL := none, fingerprint := none, receivers := none, status := none }

/-- An alert submission with no `labels` key: rejected with a 400. -/
def subBad : AlertSubmission :=
  { labels := none, annots := none, startsAt := none, endsAt := none,
    generatorURL := none, fingerprint := none, receivers := none, status := none }

/-- A second well-formed submission with different labels than `subOk`. -/
def subOk2 : AlertSubmission :=
  { subOk with labels := some [("alertname", "Y")] }

/-! ### Theorems for the claims -/

/-- Claim C1, counterexample: the coverage window of
`match_silence_to_alert` is closed, not half-open.  At `now = s0.endsAt`
the silence `s0` still covers `a0` (the code only rejects
`now > endsAt`), while the claim states that at `now = endsAt` a silence
no longer covers any alert. -/
theorem c1_covers_at_endsAt :
    s0.endsAt = 10 ∧ match_silence_to_alert e0 10 s0 a0 = true := by
  constructor
  · rfl
  · decide

/-- Claim C1 (amended): a silence covers an alert exactly when `now` lies
in the closed window `[startsAt, endsAt]` — endpoints included — and every
matcher of the silence evaluates true against the alert's labels. -/
theorem c1_coverage_closed_window (E : RegexEngine) (now : Int) (s : Silence) (a : Alert) :
    match_silence_to_alert E now s a = true ↔
      (s.startsAt ≤ now ∧ now ≤ s.endsAt ∧
        ∀ m ∈ s.matchers, matches_label E m (a.labels.lookup m.name) = true) := by
  unfold match_silence_to_alert
  split
  case isTrue h =>
    simp only [Bool.or_eq_true, decide_eq_true_eq] at h
    constructor
    · intro hf
      exact absurd hf (by decide)
    · rintro ⟨h1, h2, -⟩
      exfalso
      omega
  case isFalse h =>
    simp only [Bool.or_eq_true, decide_eq_true_eq, not_or] at h
    simp only [List.all_eq_true]
    constructor
    · intro hall
      exact ⟨by omega, by omega, hall⟩
    · intro hrhs
      exact hrhs.2.2

/-- Claim C2: `post_alerts` on the batch `[subOk, subBad]` reports the
validation error but leaves `subOk`'s alert in the (initially empty)
store: the store is *not* unmodified on a mid-batch failure. -/
theorem c2_partial_batch_mutates_store :
    ((post_alerts (fun _ => "f") (fun _ => "web.hook") 0 [subOk, subBad] []).2
        = some "Alert must have labels")
    ∧ ((post_alerts (fun _ => "f") (fun _ => "web.hook") 0 [subOk, subBad] []).1).length = 1 := by
  constructor
  · decide
  · decide

/-- Claim C3, counterexample: with flags `active=false, silenced=true,
unprocessed=false, inhibited=true` a resolved alert with empty
`inhibitedBy` passes the state filter, so the result is not exactly the
suppressed alerts plus the alerts with non-empty `inhibitedBy`. -/
theorem c3_resolved_alert_passes :
    filter_alerts_by_params [resolved0]
        { active := false, silenced := true, inhibited := true, unprocessed := false }
      = [resolved0]
    ∧ resolved0.status.state ≠ "suppressed"
    ∧ resolved0.status.inhibitedBy = [] := by
  refine ⟨by decide, by decide, by decide⟩

/-- Claim C3 (amended): with flags `active=false, silenced=true,
unprocessed=false, inhibited=true`, the state filter keeps exactly the
alerts whose state is neither `active` nor `unprocessed` — i.e. all
suppressed and all resolved alerts; `inhibitedBy` plays no role, since
`inhibited=true` never excludes, and it never rescues an excluded alert. -/
theorem c3_filter_keeps_non_active_non_unprocessed (l : List Alert) :
    filter_alerts_by_params l
        { active := false, silenced := true, inhibited := true, unprocessed := false }
      = l.filter fun a =>
          !(a.status.state == "active") && !(a.status.state == "unprocessed") := by
  unfold filter_alerts_by_params
  apply List.filter_congr
  intro a _
  cases h1 : a.status.state == "active" <;> cases h3 : a.status.state == "unprocessed" <;>
    simp [h1, h3]

/-- Closed form of the per-alert sweep: branch on whether the covering-id
set is empty. -/
lemma apply_silence_to_alert_eq (E : RegexEngine) (now : Int) (ss : List Silence)
    (a : Alert) :
    apply_silence_to_alert E now ss a =
      if silencedIdsFor E now ss a = [] then
        { a with status :=
            { a.status with
                state := if a.status.state = "suppressed" then "active" else a.status.state,
                silencedBy := [] } }
      else
        { a with status :=
            { a.status with
                state := "suppressed",
                silencedBy := silencedIdsFor E now ss a } } := by
  unfold apply_silence_to_alert
  by_cases h : silencedIdsFor E now ss a = [] <;> simp [h, beq_iff_eq]

/-- The silence sweep never touches an alert's labels. -/
lemma apply_silence_to_alert_labels (E : RegexEngine) (now : Int) (ss : List Silence)
    (a : Alert) : (apply_silence_to_alert E now ss a).labels = a.labels := by
  rw [apply_silence_to_alert_eq]
  by_cases h : silencedIdsFor E now ss a = [] <;> simp [h]

/-- `match_silence_to_alert` reads nothing of the alert but its labels. -/
lemma match_silence_to_alert_congr (E : RegexEngine) (now : Int) (s : Silence)
    (a b : Alert) (h : a.labels = b.labels) :
    match_silence_to_alert E now s a = match_silence_to_alert E now s b := by
  unfold match_silence_to_alert
  rw [h]

/-- Hence the covering-id computation also depends only on the labels. -/
lemma silencedIdsFor_congr (E : RegexEngine) (now : Int) (ss : List Silence)
    (a b : Alert) (h : a.labels = b.labels) :
    silencedIdsFor E now ss a = silencedIdsFor E now ss b := by
  unfold silencedIdsFor
  congr 1
  apply List.filter_congr
  intro s _
  exact match_silence_to_alert_congr E now s a b h

/-- The covering ids of a swept alert equal those of the original alert. -/
lemma silencedIdsFor_apply (E : RegexEngine) (now : Int) (ss : List Silence) (a : Alert) :
    silencedIdsFor E now ss (apply_silence_to_alert E now ss a) = silencedIdsFor E now ss a :=
  silencedIdsFor_congr E now ss _ a (apply_silence_to_alert_labels E now ss a)

/-- Sweeping one alert twice with the same silences and instant is the same
as sweeping it once. -/
lemma apply_silence_to_alert_idem (E : RegexEngine) (now : Int) (ss : List Silence)
    (a : Alert) :
    apply_silence_to_alert E now ss (apply_silence_to_alert E now ss a)
      = apply_silence_to_alert E now ss a := by
  have h2 := silencedIdsFor_apply E now ss a
  by_cases h : silencedIdsFor E now ss a = []
  · rw [h] at h2
    rw [apply_silence_to_alert_eq E now ss (apply_silence_to_alert E now ss a), if_pos h2,
      apply_silence_to_alert_eq E now ss a, if_pos h]
    by_cases hs : a.status.state = "suppressed" <;> simp [hs]
  · have h2ne : ¬ silencedIdsFor E now ss (apply_silence_to_alert E now ss a) = [] := by
      rw [h2]; exact h
    rw [apply_silence_to_alert_eq E now ss (apply_silence_to_alert E now ss a), if_neg h2ne,
      apply_silence_to_alert_eq E now ss a, if_neg h]
    simp only [Alert.mk.injEq, AlertStatus.mk.injEq, and_true, true_and]
    exact silencedIdsFor_congr E now ss _ a rfl

/-- Claim C4: applying the silence sweep twice in succession with the same
silences and the same instant produces the same alert list as applying it
once — the second application makes no observable change. -/
theorem c4_apply_silences_idempotent (E : RegexEngine) (now : Int) (ss : List Silence)
    (l : List Alert) :
    apply_silences_to_alerts E now ss (apply_silences_to_alerts E now ss l)
      = apply_silences_to_alerts E now ss l := by
  unfold apply_silences_to_alerts
  rw [List.map_map]
  apply List.map_congr_left
  intro a _
  exact apply_silence_to_alert_idem E now ss a

/-- Claim C5: after one pass of the silence sweep, the alert at position
`i` has `silencedBy` equal to its covering-id set; its state is
`suppressed` whenever that set is non-empty, regardless of the previous
state; and when the set is empty, its state is `active` if the previous
state was `suppressed` and is the previous state otherwise. -/
theorem c5_apply_silences_postcondition (E : RegexEngine) (now : Int) (ss : List Silence)
    (l : List Alert) (i : Nat) (h1 : i < l.length)
    (h2 : i < (apply_silences_to_alerts E now ss l).length) :
    ((apply_silences_to_alerts E now ss l).get ⟨i, h2⟩).status.silencedBy
        = silencedIdsFor E now ss (l.get ⟨i, h1⟩)
    ∧ ((apply_silences_to_alerts E now ss l).get ⟨i, h2⟩).status.state
        = (if silencedIdsFor E now ss (l.get ⟨i, h1⟩) = [] then
             (if (l.get ⟨i, h1⟩).status.state = "suppressed" then "active"
              else (l.get ⟨i, h1⟩).status.state)
           else "suppressed") := by
  have hget : (apply_silences_to_alerts E now ss l).get ⟨i, h2⟩
      = apply_silence_to_alert E now ss (l.get ⟨i, h1⟩) := by
    unfold apply_silences_to_alerts
    simp [List.get_eq_getElem]
  rw [hget, apply_silence_to_alert_eq]
  by_cases h : silencedIdsFor E now ss (l.get ⟨i, h1⟩) = []
  · rw [if_pos h, if_pos h]
    exact ⟨h.symm, rfl⟩
  · rw [if_neg h, if_neg h]
    exact ⟨rfl, rfl⟩

/-- Witness for C5 at a concrete input: the silence `s0` covers `a0` at
instant 5, so the sweep suppresses it and records the covering id. -/
theorem c5_witness :
    (0 < ([a0] : List Alert).length)
    ∧ (0 < (apply_silences_to_alerts e0 5 [s0] [a0]).length)
    ∧ (((apply_silences_to_alerts e0 5 [s0] [a0]).get ⟨0, by decide⟩).status.silencedBy
          = silencedIdsFor e0 5 [s0] (([a0] : List Alert).get ⟨0, by decide⟩)
        ∧ ((apply_silences_to_alerts e0 5 [s0] [a0]).get ⟨0, by decide⟩).status.state
          = (if silencedIdsFor e0 5 [s0] (([a0] : List Alert).get ⟨0, by decide⟩) = [] then
               (if (([a0] : List Alert).get ⟨0, by decide⟩).status.state = "suppressed" then
                  "active"
                else (([a0] : List Alert).get ⟨0, by decide⟩).status.state)
             else "suppressed")) :=
  ⟨by decide, by decide, c5_apply_silences_postcondition e0 5 [s0] [a0] 0 (by decide) (by decide)⟩

/-- Closed form of the per-alert silence removal: branch on membership and
on whether the erased list is empty. -/
lemma remove_silence_from_alert_eq (sid : String) (a : Alert) :
    remove_silence_from_alert sid a =
      if sid ∈ a.status.silencedBy then
        (if a.status.silencedBy.erase sid = [] then
          { a with status :=
              { a.status with
                  silencedBy := [],
                  state := if a.status.state = "suppressed" then "active"
                           else a.status.state } }
        else
          { a with status :=
              { a.status with silencedBy := a.status.silencedBy.erase sid } })
      else a := by
  unfold remove_silence_from_alert
  by_cases h : sid ∈ a.status.silencedBy
  · by_cases h2 : a.status.silencedBy.erase sid = [] <;> simp [h, h2, beq_iff_eq]
  · simp [h]

/-- Claim C6: deleting an existing silence immediately rewrites every
alert: the deleted id is gone from the alert's `silencedBy` (which becomes
its erasure); an alert whose `silencedBy` thereby becomes empty reverts to
`active`; an alert whose `silencedBy` stays non-empty keeps state
`suppressed`.  The last two points assume the reachable-store invariant
that a non-empty `silencedBy` implies state `suppressed`, and distinctness
of the recorded ids. -/
theorem c6_delete_silence_eagerly_updates (sid : String) (st st' : Store)
    (hdel : delete_silence sid st = some st') (i : Nat) (h1 : i < st.alerts.length)
    (h2 : i < st'.alerts.length)
    (hnd : (st.alerts[i]).status.silencedBy.Nodup)
    (hinv : (st.alerts[i]).status.silencedBy ≠ [] →
            (st.alerts[i]).status.state = "suppressed") :
    (st'.alerts[i]).status.silencedBy = (st.alerts[i]).status.silencedBy.erase sid
    ∧ sid ∉ (st'.alerts[i]).status.silencedBy
    ∧ (sid ∈ (st.alerts[i]).status.silencedBy →
        (st.alerts[i]).status.silencedBy.erase sid = [] →
        (st'.alerts[i]).status.state = "active")
    ∧ ((st'.alerts[i]).status.silencedBy ≠ [] →
        (st'.alerts[i]).status.state = "suppressed") := by
  have halerts : st'.alerts = remove_silence_from_alerts sid st.alerts := by
    unfold delete_silence at hdel
    cases hf : st.silences.find? (fun s => s.id == sid) with
    | none => rw [hf] at hdel; cases hdel
    | some s =>
        rw [hf] at hdel
        simp only [Option.some.injEq] at hdel
        rw [← hdel]
  have hget : st'.alerts[i] = remove_silence_from_alert sid st.alerts[i] := by
    have hB : st'.alerts[i]? = some (remove_silence_from_alert sid st.alerts[i]) := by
      rw [halerts]
      unfold remove_silence_from_alerts
      rw [List.getElem?_map, List.getElem?_eq_getElem h1]
      rfl
    have hA : st'.alerts[i]? = some st'.alerts[i] := List.getElem?_eq_getElem h2
    rw [hA] at hB
    exact Option.some.inj hB
  rw [hget, remove_silence_from_alert_eq]
  by_cases hm : sid ∈ (st.alerts[i]).status.silencedBy
  · have hne : (st.alerts[i]).status.silencedBy ≠ [] := List.ne_nil_of_mem hm
    by_cases he : (st.alerts[i]).status.silencedBy.erase sid = []
    · rw [if_pos hm, if_pos he]
      refine ⟨he.symm, by simp, fun _ _ => ?_, fun hc => absurd rfl hc⟩
      rw [hinv hne]
      simp
    · rw [if_pos hm, if_neg he]
      exact ⟨rfl, hnd.not_mem_erase, fun _ he' => absurd he' he, fun _ => hinv hne⟩
  · rw [if_neg hm, List.erase_of_not_mem hm]
    exact ⟨rfl, hm, fun hmem _ => absurd hmem hm, hinv⟩

/-- An alert suppressed by the single silence `s0`. -/
def a1 : Alert :=
  { a0 with status :=
      { state := "suppressed", silencedBy := ["s0"], inhibitedBy := [], mutedBy := [] } }

/-- A store holding `a1` and the silence `s0` that suppresses it. -/
def st1 : Store := { alerts := [a1], silences := [s0] }

/-- Witness for C6 at a concrete input: deleting `s0` from `st1` succeeds
and reverts the alert to `active` with empty `silencedBy`. -/
theorem c6_witness :
    (delete_silence "s0" st1 = some { alerts := [a0], silences := [] })
    ∧ (0 < st1.alerts.length)
    ∧ (0 < (Store.mk [a0] []).alerts.length)
    ∧ (st1.alerts[0]).status.silencedBy.Nodup
    ∧ (((Store.mk [a0] []).alerts[0]).status.silencedBy
          = (st1.alerts[0]).status.silencedBy.erase "s0"
        ∧ "s0" ∉ ((Store.mk [a0] []).alerts[0]).status.silencedBy
        ∧ ("s0" ∈ (st1.alerts[0]).status.silencedBy →
            (st1.alerts[0]).status.silencedBy.erase "s0" = [] →
            ((Store.mk [a0] []).alerts[0]).status.state = "active")
        ∧ (((Store.mk [a0] []).alerts[0]).status.silencedBy ≠ [] →
            ((Store.mk [a0] []).alerts[0]).status.state = "suppressed")) :=
  ⟨by decide, by decide, by decide, by decide,
    c6_delete_silence_eagerly_updates "s0" st1 (Store.mk [a0] []) (by decide) 0
      (by decide) (by decide) (by decide) (fun _ => by decide)⟩

/-- Claim C7: a regex matcher whose pattern fails to compile never makes
the evaluator raise (the embedding is a total function); the match is
treated as failed, so the result is the negation flag alone: `false` when
`isEqual` is true (or absent, the default), `true` when `isEqual` is
false. -/
theorem c7_invalid_regex_fails_open (E : RegexEngine) (m : Matcher) (lv : Option String)
    (hr : m.isRegex = true) (hv : E.valid m.value = false) :
    matches_label E m lv = !(m.isEqual.getD true) := by
  unfold matches_label
  simp only [hr, hv]
  cases hE : m.isEqual.getD true <;> simp [hE]

/-- A regex matcher with an unparenthesized pattern, invalid under any
engine that rejects it. -/
def mBad : Matcher := { name := "n", value := "(", isRegex := true, isEqual := some true }

/-- Witness for C7 at a concrete input: under `e0` (which rejects every
pattern) the evaluator returns `false` for `mBad` against the label value
`"x"`, the negation of its `isEqual = true`. -/
theorem c7_witness :
    mBad.isRegex = true ∧ e0.valid mBad.value = false
    ∧ matches_label e0 mBad (some "x") = !(mBad.isEqual.getD true) :=
  ⟨rfl, rfl, c7_invalid_regex_fails_open e0 mBad (some "x") rfl rfl⟩

/-- Unfolding equation of `removeFirstById` on a cons cell. -/
lemma removeFirstById_cons (sid : String) (s : Silence) (rest : List Silence) :
    removeFirstById sid (s :: rest)
      = if s.id == sid then rest else s :: removeFirstById sid rest := rfl

/-- Removing the first silence with a present id shortens the list by
exactly one. -/
lemma removeFirstById_length (sid : String) (l : List Silence)
    (h : l.filter (fun s => s.id == sid) ≠ []) :
    (removeFirstById sid l).length + 1 = l.length := by
  induction l with
  | nil => simp at h
  | cons s rest ih =>
      rw [removeFirstById_cons]
      rw [List.filter_cons] at h
      by_cases hs : (s.id == sid) = true
      · rw [if_pos hs]
        rfl
      · rw [if_neg hs] at h ⊢
        simp only [List.length_cons]
        have := ih h
        omega

/-- If at most one silence carries the id, none is left after removing the
first one. -/
lemma removeFirstById_no_id (sid : String) (l : List Silence)
    (h : (l.filter (fun s => s.id == sid)).length ≤ 1) :
    (removeFirstById sid l).filter (fun s => s.id == sid) = [] := by
  induction l with
  | nil => rfl
  | cons s rest ih =>
      rw [removeFirstById_cons]
      rw [List.filter_cons] at h
      by_cases hs : (s.id == sid) = true
      · rw [if_pos hs] at h ⊢
        simp only [List.length_cons] at h
        have h0 : (rest.filter (fun s => s.id == sid)).length = 0 := by omega
        exact List.length_eq_zero.mp h0
      · rw [if_neg hs] at h ⊢
        rw [List.filter_cons, if_neg hs]
        exact ih h

/-- Claim C8: posting a valid silence whose id matches exactly one existing
silence never errors and upserts — after the request the silence list has
the same length, and exactly one silence carries that id: the newly
submitted one (status `active`, `updatedAt = now`). -/
theorem c8_upsert_replaces_in_place (E : RegexEngine) (now : Int) (genId : String)
    (sub : SilenceSubmission) (st : Store) (sid : String) (ms : List Matcher)
    (sa ea : Int) (cb cm : String)
    (hid : sub.id = some sid) (hm : sub.matchers = some ms) (hms : ms ≠ [])
    (hsa : sub.startsAt = some sa) (hea : sub.endsAt = some ea)
    (hcb : sub.createdBy = some cb) (hcm : sub.comment = some cm)
    (hexist : (st.silences.filter (fun s => s.id == sid)).length = 1) :
    ∃ st', post_silences E now genId sub st = .ok (st', sid)
      ∧ st'.silences.length = st.silences.length
      ∧ st'.silences.filter (fun s => s.id == sid)
          = [{ id := sid, matchers := ms, startsAt := sa, endsAt := ea,
               createdBy := cb, comment := cm, stateFlag := "active",
               updatedAt := now }] := by
  have hlen0 : ¬ ms.length = 0 := fun h0 => hms (List.length_eq_zero.mp h0)
  have hne : st.silences.filter (fun s => s.id == sid) ≠ [] := by
    intro hnil
    rw [hnil] at hexist
    simp at hexist
  refine ⟨{ alerts := apply_silences_to_alerts E now
              (removeFirstById sid st.silences ++
                [{ id := sid, matchers := ms, startsAt := sa, endsAt := ea,
                   createdBy := cb, comment := cm, stateFlag := "active",
                   updatedAt := now }]) st.alerts,
            silences := removeFirstById sid st.silences ++
                [{ id := sid, matchers := ms, startsAt := sa, endsAt := ea,
                   createdBy := cb, comment := cm, stateFlag := "active",
                   updatedAt := now }] }, ?_, ?_, ?_⟩
  · unfold post_silences
    rw [hm, hsa, hea, hcb, hcm]
    simp only [hlen0, if_false, reduceIte, hid, Option.getD_some]
  · simp only [List.length_append, List.length_cons, List.length_nil]
    have := removeFirstById_length sid st.silences hne
    omega
  · rw [List.filter_append, removeFirstById_no_id sid st.silences (by omega)]
    simp

/-- A fresh submission replacing the silence `s0`: same id, new window and
matcher set. -/
def subUp : SilenceSubmission :=
  { id := some "s0",
    matchers := some [{ name := "team", value := "db", isRegex := false, isEqual := some true }],
    startsAt := some 100, endsAt := some 200, createdBy := some "u2", comment := some "c2" }

/-- Witness for C8 at a concrete input: re-posting id `s0` over the store
`st1` (which holds exactly one silence with that id) succeeds and replaces
it. -/
theorem c8_witness :
    subUp.id = some "s0"
    ∧ (st1.silences.filter (fun s => s.id == "s0")).length = 1
    ∧ (∃ st', post_silences e0 100 "gen" subUp st1 = .ok (st', "s0")
        ∧ st'.silences.length = st1.silences.length
        ∧ st'.silences.filter (fun s => s.id == "s0")
            = [{ id := "s0",
                 matchers := [{ name := "team", value := "db", isRegex := false,
                                isEqual := some true }],
                 startsAt := 100, endsAt := 200, createdBy := "u2", comment := "c2",
                 stateFlag := "active", updatedAt := 100 }]) :=
  ⟨rfl, by decide,
    c8_upsert_replaces_in_place e0 100 "gen" subUp st1 "s0"
      [{ name := "team", value := "db", isRegex := false, isEqual := some true }]
      100 200 "u2" "c2" rfl rfl (by decide) rfl rfl rfl rfl (by decide)⟩

/-- The first alert submission used for the fingerprint-collision run. -/
def c9Sub1 : AlertSubmission := { subOk with labels := some [("x", "1")] }

/-- The second alert submission used for the fingerprint-collision run. -/
def c9Sub2 : AlertSubmission := { subOk with labels := some [("x", "2")] }

/-- Claim C9: fingerprints are sixteen independently random hex characters
with no uniqueness check, so a run of the RNG that repeats (modelled by
the constant draw stream) stores two distinct alerts — their labels
differ — sharing one fingerprint. -/
theorem c9_fingerprint_collision :
    ((post_alerts (fun _ => "0000000000000000") (fun _ => "web.hook") 0
        [c9Sub1, c9Sub2] []).1.map Alert.fingerprint
      = ["0000000000000000", "0000000000000000"])
    ∧ ((post_alerts (fun _ => "0000000000000000") (fun _ => "web.hook") 0
        [c9Sub1, c9Sub2] []).1.map Alert.labels
      = [[("x", "1")], [("x", "2")]]) :=
  ⟨by decide, by decide⟩

/-- Success case of the `post_alerts` loop: when every submission has
non-empty labels, the batch is appended in order, the `i`-th accepted
submission becoming `mkPostedAlert fp recv now i`. -/
lemma post_alerts_loop_ok (fp recv : Nat → String) (now : Int)
    (subs : List AlertSubmission) :
    ∀ (i : Nat) (acc : List Alert), (∀ sub ∈ subs, sub.labels.getD [] ≠ []) →
      post_alerts_loop fp recv now i subs acc
        = (acc ++ (List.enumFrom i subs).map (fun p => mkPostedAlert fp recv now p.1 p.2),
           none) := by
  induction subs with
  | nil => intro i acc _; simp [post_alerts_loop, List.enumFrom]
  | cons sub rest ih =>
      intro i acc h
      have hs : sub.labels.getD [] ≠ [] := h sub (by simp)
      rw [post_alerts_loop, if_neg hs]
      rw [ih (i + 1) (acc ++ [mkPostedAlert fp recv now i sub])
            (fun s hm => h s (by simp [hm]))]
      simp [List.enumFrom]

/-- Claim C10: for a batch of valid submissions, the stored alerts are the
old list plus one alert per submission, where the `i`-th new alert takes
its fingerprint from the server's draw stream (`fp i`), a single
server-chosen receiver (`recv i`) and a fresh `active` status with empty
`silencedBy`/`inhibitedBy`/`mutedBy`; any `fingerprint`, `receivers` or
`status` field of the payload is ignored (`scrubSubmission` changes
nothing). -/
theorem c10_post_alerts_server_fields (fp recv : Nat → String) (now : Int)
    (subs : List AlertSubmission) (st : List Alert)
    (hval : ∀ sub ∈ subs, sub.labels.getD [] ≠ []) :
    post_alerts fp recv now subs st
      = (st ++ subs.enum.map (fun p => mkPostedAlert fp recv now p.1 p.2), none)
    ∧ ∀ (i : Nat) (sub : AlertSubmission),
        (mkPostedAlert fp recv now i sub).fingerprint = fp i
        ∧ (mkPostedAlert fp recv now i sub).receivers = [recv i]
        ∧ (mkPostedAlert fp recv now i sub).status
            = { state := "active", silencedBy := [], inhibitedBy := [], mutedBy := [] }
        ∧ mkPostedAlert fp recv now i (scrubSubmission sub) = mkPostedAlert fp recv now i sub := by
  refine ⟨?_, fun i sub => ⟨rfl, rfl, rfl, rfl⟩⟩
  unfold post_alerts
  rw [post_alerts_loop_ok fp recv now subs 0 st hval]
  rfl

/-- Witness for C10 at a concrete input: posting the single valid
submission `subOk` into an empty store. -/
theorem c10_witness :
    (∀ sub ∈ ([subOk] : List AlertSubmission), sub.labels.getD [] ≠ [])
    ∧ post_alerts (fun _ => "f") (fun _ => "web.hook") 0 [subOk] []
        = ([] ++ ([subOk] : List AlertSubmission).enum.map
            (fun p => mkPostedAlert (fun _ => "f") (fun _ => "web.hook") 0 p.1 p.2),
           none) :=
  ⟨by decide,
    (c10_post_alerts_server_fields (fun _ => "f") (fun _ => "web.hook") 0 [subOk] []
      (by decide)).1⟩

end FakeAlertmanager
